import Mathlib

/-!
Verification of the DMX frame pipeline of `dmx_bridge.py` (ArduiNode).

The pipeline state of class `DMXBridge` is embedded as the structure
`Bridge`; the configuration module `config.py` (whose settings are
user-adjustable) is embedded as the structure `Config` carrying the two
settings the pipeline reads, with the shipped default values.  Ingestion
(`_on_dmx` / `_on_artnet_dmx`, which are per-frame identical), the output
scheduler body (`_output_worker`), the serial sink
(`_send_frame_to_arduino`), `get_performance_stats` and `shutdown` are
embedded as pure functions.  Real time, threading and the serial device
are abstracted: a scheduler iteration is one step of `worker_step`, and
the serial port is a record of its `is_open` flag together with a flag
saying whether a write raises (models `SerialException`/timeout).
The writes a call performs are returned explicitly as a list of packets.
-/

namespace DmxBridge

/-- A frame: an ordered list of channel values (bytes, 0-255). -/
abbrev Frame := List Nat

/-- `config.py`: the two settings the pipeline reads, with defaults
`DMX_CHANNELS = 512`, `FRAME_BUFFER_SIZE = 50`. -/
structure Config where
  DMX_CHANNELS : Nat := 512
  FRAME_BUFFER_SIZE : Nat := 50
deriving DecidableEq

/-- The shipped `config.py` values. -/
def defaultConfig : Config := { DMX_CHANNELS := 512, FRAME_BUFFER_SIZE := 50 }

/-- The serial transport: `is_open` mirrors `serial.Serial.is_open`;
`write_fails` abstracts whether `self.ser.write` raises (write timeout /
I/O error), which the source catches. -/
structure SerialPort where
  is_open : Bool
  write_fails : Bool
deriving DecidableEq

/-- The pipeline state of `DMXBridge` (`__init__`, lines 24-47); the
wall-clock fields (`last_frame_time`, `fps_start_time`) are not modelled.
`frame_queue` front is the oldest element (`queue.Queue` FIFO order). -/
structure Bridge where
  frame_queue : List Frame
  dmx_data : Frame
  active : Bool
  last_active_state : Bool
  dropped_frames : Nat
  processed_frames : Nat
  fps_counter : Nat
  fps : ℚ
  running : Bool
  ser : Option SerialPort
deriving DecidableEq

/-- `DMXBridge.__init__`: empty queue, `dmx_data = [0] * DMX_CHANNELS`,
all counters zero, not running, no serial port. -/
def init_bridge (cfg : Config) : Bridge :=
  { frame_queue := []
    dmx_data := List.replicate cfg.DMX_CHANNELS 0
    active := false
    last_active_state := false
    dropped_frames := 0
    processed_frames := 0
    fps_counter := 0
    fps := 0
    running := false
    ser := none }

/-- `_on_dmx` lines 153-158: pad a short frame with trailing zeros to
`N = DMX_CHANNELS`, truncate a long one to its first `N` elements. -/
def normalize_frame (N : Nat) (data : Frame) : Frame :=
  if data.length < N then data ++ List.replicate (N - data.length) 0
  else if N < data.length then data.take N
  else data

/-- `_on_dmx` line 164: `has_data = any(v > 0 for v in data)`. -/
def has_data (data : Frame) : Bool :=
  data.any (fun v => decide (0 < v))

/-- Activity transition events (the `DMX ACTIVE` / `DMX INACTIVE` log
lines emitted at _on_dmx line 168). -/
inductive ActivityEvent
  | Activated
  | Deactivated
deriving DecidableEq

/-- Outcome of the queue-insertion block of `_on_dmx` (lines 170-181). -/
inductive PushOutcome
  | enqueued
  | evicted
  | emptyFallback
  | refull
deriving DecidableEq

/-- `_on_dmx` lines 170-181, queue part only.  `put_nowait` raises `Full`
iff the queue already holds at least `C = FRAME_BUFFER_SIZE` frames.  In
the `Full` handler, `get_nowait` raises `Empty` on an empty queue (the
`pass` fallback, dropping the frame); if the second `put_nowait` raises
`Full` again that exception escapes to the outer handler and the frame is
likewise not enqueued (`refull`). -/
def push_frame (C : Nat) (q : List Frame) (f : Frame) : PushOutcome × List Frame :=
  if q.length < C then (PushOutcome.enqueued, q ++ [f])
  else
    match q with
    | [] => (PushOutcome.emptyFallback, [])
    | _ :: rest =>
      if rest.length < C then (PushOutcome.evicted, rest ++ [f])
      else (PushOutcome.refull, rest)

/-- `_on_dmx` (identically `_on_artnet_dmx`): normalize the incoming
frame, store it in `dmx_data`, run the activity edge detection (the
returned `Option ActivityEvent` is the log line it prints), then enqueue
via `push_frame`, incrementing `processed_frames` on a plain enqueue and
`dropped_frames` whenever the first `put_nowait` found the queue full. -/
def on_dmx (cfg : Config) (b : Bridge) (raw : Frame) : Option ActivityEvent × Bridge :=
  let data := normalize_frame cfg.DMX_CHANNELS raw
  let hd := has_data data
  let ev : Option ActivityEvent :=
    if hd != b.last_active_state then
      some (if hd then ActivityEvent.Activated else ActivityEvent.Deactivated)
    else none
  let b2 : Bridge :=
    if hd != b.last_active_state then
      { b with dmx_data := data, active := hd, last_active_state := hd }
    else { b with dmx_data := data }
  let pr := push_frame cfg.FRAME_BUFFER_SIZE b2.frame_queue data
  match pr.1 with
  | PushOutcome.enqueued =>
    (ev, { b2 with frame_queue := pr.2, processed_frames := b2.processed_frames + 1 })
  | _ =>
    (ev, { b2 with frame_queue := pr.2, dropped_frames := b2.dropped_frames + 1 })

/-- Feed a list of frames through `on_dmx`, collecting the emitted
activity events in order. -/
def ingest_events (cfg : Config) (b : Bridge) : List Frame → List ActivityEvent × Bridge
  | [] => ([], b)
  | f :: fs =>
    let r := on_dmx cfg b f
    let rest := ingest_events cfg r.2 fs
    (r.1.toList ++ rest.1, rest.2)

/-- `_send_frame_to_arduino` lines 268-274: the wire packet
`[0xFF, DMX_CHANNELS & 0xFF, (DMX_CHANNELS >> 8) & 0xFF] ++ data`. -/
def build_packet (N : Nat) (data : Frame) : List Nat :=
  0xFF :: (N &&& 0xFF) :: ((N >>> 8) &&& 0xFF) :: data

/-- Modelled from the spec: the receiving side's decoder (the Arduino
firmware, not present under src/) as the claim describes it — read the
little-endian 16-bit count from bytes 1-2 and take that many following
bytes. -/
def decode_packet (p : List Nat) : Option Frame :=
  match p with
  | _ :: lo :: hi :: rest =>
    if lo + 256 * hi ≤ rest.length then some (rest.take (lo + 256 * hi)) else none
  | _ => none

/-- Result of one `_send_frame_to_arduino` call: `skipped` is the silent
early return when the port is absent or closed; `writeError` is the
caught-and-logged `Serial write error` path; `sentOk` is a completed
write. -/
inductive SendResult
  | skipped
  | sentOk
  | writeError
deriving DecidableEq

/-- Observable effect of one `_send_frame_to_arduino` call: its result,
how many `ser.write` calls were attempted, and the packets actually
written. -/
structure SendEffect where
  result : SendResult
  attempts : Nat
  written : List (List Nat)
deriving DecidableEq

/-- `_send_frame_to_arduino` lines 262-280: if the port is absent or not
open, return at once (no write, no state change, nothing logged);
otherwise build the packet and attempt exactly one write, catching a
write failure (logged, not retried). -/
def send_frame_to_arduino (cfg : Config) (ser : Option SerialPort) (data : Frame) :
    SendEffect :=
  match ser with
  | none => { result := SendResult.skipped, attempts := 0, written := [] }
  | some s =>
    if s.is_open then
      if s.write_fails then
        { result := SendResult.writeError, attempts := 1, written := [] }
      else
        { result := SendResult.sentOk, attempts := 1
          written := [build_packet cfg.DMX_CHANNELS data] }
    else { result := SendResult.skipped, attempts := 0, written := [] }

/-- The send-branch body of `_output_worker` (lines 236-246), one tick:
pop the oldest queued frame and send it, or, when the queue is empty,
resend `dmx_data` provided it is non-empty (`if self.dmx_data:`). -/
def output_worker_tick (cfg : Config) (b : Bridge) : Bridge × List (List Nat) :=
  match b.frame_queue with
  | frame :: rest =>
    let e := send_frame_to_arduino cfg b.ser frame
    ({ b with frame_queue := rest, fps_counter := b.fps_counter + 1 }, e.written)
  | [] =>
    if b.dmx_data = [] then (b, [])
    else
      let e := send_frame_to_arduino cfg b.ser b.dmx_data
      ({ b with fps_counter := b.fps_counter + 1 }, e.written)

/-- Iterate `output_worker_tick`, concatenating the writes of each tick. -/
def tick_run (cfg : Config) (b : Bridge) : Nat → Bridge × List (List Nat)
  | 0 => (b, [])
  | Nat.succ k =>
    let s := output_worker_tick cfg b
    let r := tick_run cfg s.1 k
    (r.1, s.2 ++ r.2)

/-- One iteration of the `while self.running` loop of `_output_worker`
(line 232): the flag is checked at the iteration boundary; once it is
false the loop body never runs again. -/
def worker_step (cfg : Config) (b : Bridge) : Bridge × List (List Nat) :=
  if b.running then output_worker_tick cfg b else (b, [])

/-- Iterate `worker_step`, concatenating the writes of each iteration. -/
def worker_run (cfg : Config) (b : Bridge) : Nat → Bridge × List (List Nat)
  | 0 => (b, [])
  | Nat.succ k =>
    let s := worker_step cfg b
    let r := worker_run cfg s.1 k
    (r.1, s.2 ++ r.2)

/-- `shutdown` lines 347-369: clear `running` (the join, receiver stop
and final print have no pipeline-state effect), then close the serial
port if it is open. -/
def shutdown (b : Bridge) : Bridge :=
  let b1 : Bridge := { b with running := false }
  match b1.ser with
  | some s =>
    if s.is_open then { b1 with ser := some { s with is_open := false } } else b1
  | none => b1

/-- The dictionary returned by `get_performance_stats`. -/
structure Stats where
  fps : ℚ
  processed_frames : Nat
  dropped_frames : Nat
  drop_rate : ℚ
  active : Bool
deriving DecidableEq

/-- `get_performance_stats` lines 334-345: the drop rate is
`dropped / (processed + dropped) * 100` guarded by `total_frames > 0`,
else `0`. -/
def get_performance_stats (b : Bridge) : Stats :=
  let total_frames := b.processed_frames + b.dropped_frames
  { fps := b.fps
    processed_frames := b.processed_frames
    dropped_frames := b.dropped_frames
    drop_rate :=
      if 0 < total_frames then (b.dropped_frames : ℚ) / (total_frames : ℚ) * 100 else 0
    active := b.active }

/-! ### Helper lemmas -/

lemma normalize_frame_length (N : Nat) (data : Frame) :
    (normalize_frame N data).length = N := by
  unfold normalize_frame
  split
  · simp only [List.length_append, List.length_replicate]
    omega
  · split
    · simp only [List.length_take]
      omega
    · omega

lemma normalize_frame_of_le (N : Nat) (data : Frame) (h : data.length ≤ N) :
    normalize_frame N data = data ++ List.replicate (N - data.length) 0 := by
  unfold normalize_frame
  split
  · rfl
  · have hlen : data.length = N := by omega
    simp [hlen]

lemma normalize_frame_of_ge (N : Nat) (data : Frame) (h : N ≤ data.length) :
    normalize_frame N data = data.take N := by
  unfold normalize_frame
  split
  · omega
  · split
    · rfl
    · have hlen : data.length = N := by omega
      rw [← hlen, List.take_length]

lemma normalize_frame_zero (N : Nat) (data : Frame) (h : ∀ v ∈ data, v = 0) :
    ∀ v ∈ normalize_frame N data, v = 0 := by
  intro v hv
  unfold normalize_frame at hv
  split at hv
  · rcases List.mem_append.1 hv with h1 | h2
    · exact h v h1
    · exact List.eq_of_mem_replicate h2
  · split at hv
    · exact h v (List.take_subset _ _ hv)
    · exact h v hv

lemma has_data_false_of_zero (l : Frame) (h : ∀ v ∈ l, v = 0) :
    has_data l = false := by
  simp only [has_data, List.any_eq_false, decide_eq_true_eq]
  intro v hv
  have := h v hv
  omega

lemma push_frame_enqueued_iff (C : Nat) (q : List Frame) (f : Frame) :
    (push_frame C q f).1 = PushOutcome.enqueued ↔ q.length < C := by
  unfold push_frame
  by_cases h : q.length < C
  · simp [h]
  · rw [if_neg h]
    cases q with
    | nil =>
      simp at h ⊢
      omega
    | cons x rest =>
      dsimp only
      split <;> simp_all

/-- Full functional expansion of `on_dmx` into explicit field updates. -/
lemma on_dmx_expand (cfg : Config) (b : Bridge) (raw : Frame) :
    on_dmx cfg b raw =
      ((if has_data (normalize_frame cfg.DMX_CHANNELS raw) != b.last_active_state then
          some (if has_data (normalize_frame cfg.DMX_CHANNELS raw) then ActivityEvent.Activated
            else ActivityEvent.Deactivated)
        else none),
       { b with
          dmx_data := normalize_frame cfg.DMX_CHANNELS raw
          active := if has_data (normalize_frame cfg.DMX_CHANNELS raw) != b.last_active_state
            then has_data (normalize_frame cfg.DMX_CHANNELS raw) else b.active
          last_active_state := has_data (normalize_frame cfg.DMX_CHANNELS raw)
          frame_queue := (push_frame cfg.FRAME_BUFFER_SIZE b.frame_queue
            (normalize_frame cfg.DMX_CHANNELS raw)).2
          processed_frames := if (push_frame cfg.FRAME_BUFFER_SIZE b.frame_queue
              (normalize_frame cfg.DMX_CHANNELS raw)).1 = PushOutcome.enqueued
            then b.processed_frames + 1 else b.processed_frames
          dropped_frames := if (push_frame cfg.FRAME_BUFFER_SIZE b.frame_queue
              (normalize_frame cfg.DMX_CHANNELS raw)).1 = PushOutcome.enqueued
            then b.dropped_frames else b.dropped_frames + 1 }) := by
  unfold on_dmx
  dsimp only
  by_cases hb : (has_data (normalize_frame cfg.DMX_CHANNELS raw)
      != b.last_active_state) = true <;>
    cases hp : (push_frame cfg.FRAME_BUFFER_SIZE b.frame_queue
      (normalize_frame cfg.DMX_CHANNELS raw)).1 <;>
    simp_all

lemma push_frame_of_lt (C : Nat) (q : List Frame) (f : Frame) (h : q.length < C) :
    push_frame C q f = (PushOutcome.enqueued, q ++ [f]) := by
  unfold push_frame
  rw [if_pos h]

/-- Either the plain enqueue or the evict-then-enqueue path is taken, with
the resulting queue made explicit. -/
lemma push_frame_safe (C : Nat) (q : List Frame) (f : Frame)
    (hC : 1 ≤ C) (hq : q.length ≤ C) :
    (push_frame C q f = (PushOutcome.enqueued, q ++ [f]) ∧ q.length < C)
    ∨ (∃ x rest, q = x :: rest
        ∧ push_frame C q f = (PushOutcome.evicted, rest ++ [f]) ∧ q.length = C) := by
  by_cases h : q.length < C
  · exact Or.inl ⟨push_frame_of_lt C q f h, h⟩
  · have hlen : q.length = C := by omega
    cases q with
    | nil =>
      simp at hlen
      omega
    | cons x rest =>
      refine Or.inr ⟨x, rest, rfl, ?_, hlen⟩
      unfold push_frame
      rw [if_neg h]
      dsimp only
      rw [if_pos (by simp at hlen ⊢; omega)]

/-! ### Claim theorems -/

/-- Claim C3 (confirmed): every frame entering the pipeline is normalized
to length exactly `N = DMX_CHANNELS` — shorter inputs are extended with
trailing zeros, longer inputs truncated to their first `N` elements,
exact-length inputs unchanged — and `on_dmx` assigns exactly this
normalized frame to `dmx_data` and enqueues it. -/
theorem push_normalizes_frame (cfg : Config) (raw : Frame) :
    (normalize_frame cfg.DMX_CHANNELS raw).length = cfg.DMX_CHANNELS
    ∧ (raw.length ≤ cfg.DMX_CHANNELS →
        normalize_frame cfg.DMX_CHANNELS raw
          = raw ++ List.replicate (cfg.DMX_CHANNELS - raw.length) 0)
    ∧ (cfg.DMX_CHANNELS ≤ raw.length →
        normalize_frame cfg.DMX_CHANNELS raw = raw.take cfg.DMX_CHANNELS)
    ∧ (raw.length = cfg.DMX_CHANNELS → normalize_frame cfg.DMX_CHANNELS raw = raw)
    ∧ (∀ b : Bridge,
        (on_dmx cfg b raw).2.dmx_data = normalize_frame cfg.DMX_CHANNELS raw)
    ∧ (∀ b : Bridge, b.frame_queue.length < cfg.FRAME_BUFFER_SIZE →
        ((on_dmx cfg b raw).2.frame_queue).getLast?
          = some (normalize_frame cfg.DMX_CHANNELS raw)) := by
  refine ⟨normalize_frame_length _ _, normalize_frame_of_le _ _, normalize_frame_of_ge _ _,
    ?_, ?_, ?_⟩
  · intro h
    rw [normalize_frame_of_le _ _ (le_of_eq h), h]
    simp
  · intro b
    rw [on_dmx_expand]
  · intro b h
    rw [on_dmx_expand]
    dsimp only
    rw [push_frame_of_lt _ _ _ h]
    exact List.getLast?_concat _

/-- Claim C3 witness: a frame of length 3 pushed with `DMX_CHANNELS = 4`
is zero-padded to length 4. -/
theorem push_normalizes_frame_witness :
    normalize_frame (Config.mk 4 2).DMX_CHANNELS [7, 0, 9]
      = [7, 0, 9] ++ List.replicate 1 0 := by
  have h := (push_normalizes_frame (Config.mk 4 2) [7, 0, 9]).2.1 (by decide)
  simpa using h

/-- Claim C2 (corrected): every `on_dmx` ingestion increments exactly one
of the two counters: `processed_frames` by 1 when the buffer had free
capacity, `dropped_frames` by 1 when it was full.  `processed_frames`
does NOT increase on an evicting push. -/
theorem push_counter_partition (cfg : Config) (b : Bridge) (raw : Frame) :
    ((on_dmx cfg b raw).2.processed_frames + (on_dmx cfg b raw).2.dropped_frames
      = b.processed_frames + b.dropped_frames + 1)
    ∧ (b.frame_queue.length < cfg.FRAME_BUFFER_SIZE →
        (on_dmx cfg b raw).2.processed_frames = b.processed_frames + 1
          ∧ (on_dmx cfg b raw).2.dropped_frames = b.dropped_frames)
    ∧ (cfg.FRAME_BUFFER_SIZE ≤ b.frame_queue.length →
        (on_dmx cfg b raw).2.processed_frames = b.processed_frames
          ∧ (on_dmx cfg b raw).2.dropped_frames = b.dropped_frames + 1) := by
  rw [on_dmx_expand]
  dsimp only
  by_cases hp : b.frame_queue.length < cfg.FRAME_BUFFER_SIZE
  · have he := (push_frame_enqueued_iff cfg.FRAME_BUFFER_SIZE b.frame_queue
      (normalize_frame cfg.DMX_CHANNELS raw)).2 hp
    rw [if_pos he, if_pos he]
    exact ⟨by omega, fun _ => ⟨rfl, rfl⟩, fun hge => absurd hp (by omega)⟩
  · have he : ¬ (push_frame cfg.FRAME_BUFFER_SIZE b.frame_queue
        (normalize_frame cfg.DMX_CHANNELS raw)).1 = PushOutcome.enqueued :=
      fun hc => hp ((push_frame_enqueued_iff _ _ _).1 hc)
    rw [if_neg he, if_neg he]
    exact ⟨by omega, fun hlt => absurd hlt hp, fun _ => ⟨rfl, rfl⟩⟩

/-- Claim C2 witness: pushing into a non-full buffer increments
`processed_frames` and leaves `dropped_frames` unchanged. -/
theorem push_counter_partition_witness :
    (on_dmx (Config.mk 4 2) (init_bridge (Config.mk 4 2)) [5]).2.processed_frames
      = (init_bridge (Config.mk 4 2)).processed_frames + 1 :=
  ((push_counter_partition (Config.mk 4 2) (init_bridge (Config.mk 4 2)) [5]).2.1
    (by decide)).1

def c2cfg : Config := { DMX_CHANNELS := 4, FRAME_BUFFER_SIZE := 1 }

def c2b1 : Bridge := (on_dmx c2cfg (init_bridge c2cfg) [5]).2

/-- Claim C2 counterexample: with buffer capacity 1, a second push finds
the buffer full, evicts the oldest frame and enqueues the new one, but
increments only `dropped_frames`; `processed_frames` stays at 1, so it
does not increase by exactly 1 on every push as the claim states. -/
theorem full_push_processed_count_cex :
    c2b1.processed_frames = 1
    ∧ c2b1.frame_queue.length = 1
    ∧ (on_dmx c2cfg c2b1 [6]).2.dropped_frames = c2b1.dropped_frames + 1
    ∧ (on_dmx c2cfg c2b1 [6]).2.frame_queue = [[6, 0, 0, 0]]
    ∧ ¬ (on_dmx c2cfg c2b1 [6]).2.processed_frames = c2b1.processed_frames + 1 := by
  decide

/-- Claim C9 (confirmed): `get_performance_stats` returns a drop rate of
`dropped / (dropped + processed) * 100`, guarded to `0` when both
counters are zero, and sampling does not change any counter. -/
theorem drop_rate_formula (b : Bridge) :
    ((get_performance_stats b).drop_rate
      = if b.dropped_frames + b.processed_frames = 0 then 0
        else (b.dropped_frames : ℚ)
          / ((b.dropped_frames : ℚ) + (b.processed_frames : ℚ)) * 100)
    ∧ (b.dropped_frames = 0 → b.processed_frames = 0 →
        (get_performance_stats b).drop_rate = 0)
    ∧ (get_performance_stats b).processed_frames = b.processed_frames
    ∧ (get_performance_stats b).dropped_frames = b.dropped_frames
    ∧ (get_performance_stats b).fps = b.fps
    ∧ (get_performance_stats b).active = b.active := by
  unfold get_performance_stats
  dsimp only
  refine ⟨?_, ?_, rfl, rfl, rfl, rfl⟩
  · by_cases h : b.processed_frames + b.dropped_frames = 0
    · rw [if_neg (by omega), if_pos (by omega)]
    · rw [if_pos (by omega), if_neg (by omega)]
      push_cast
      rw [add_comm ((b.processed_frames : ℚ))]
  · intro h1 h2
    rw [if_neg (by omega)]

/-- Claim C9 witness: on a fresh pipeline both counters are zero and the
drop rate is 0. -/
theorem drop_rate_formula_witness :
    (get_performance_stats (init_bridge c2cfg)).drop_rate = 0 :=
  (drop_rate_formula (init_bridge c2cfg)).2.1 rfl rfl

/-- Claim C10 (confirmed): with capacity `C ≥ 1` and a queue currently
holding at most `C` frames, a push never reaches the `Empty` fallback nor
a second `Full`; it either enqueues or evicts exactly the oldest frame,
the new frame always ends up last in the queue, and the queue stays
within capacity.  The same holds for the full `on_dmx` ingestion. -/
theorem overflow_branch_safety (C : Nat) (q : List Frame) (f : Frame)
    (hC : 1 ≤ C) (hq : q.length ≤ C) :
    ((push_frame C q f).1 = PushOutcome.enqueued
      ∨ (push_frame C q f).1 = PushOutcome.evicted)
    ∧ (push_frame C q f).1 ≠ PushOutcome.emptyFallback
    ∧ (push_frame C q f).1 ≠ PushOutcome.refull
    ∧ (C ≤ q.length → (push_frame C q f).1 = PushOutcome.evicted)
    ∧ ((push_frame C q f).2).getLast? = some f
    ∧ ((push_frame C q f).2).length ≤ C
    ∧ (∀ (cfg : Config) (b : Bridge) (raw : Frame),
        cfg.FRAME_BUFFER_SIZE = C → b.frame_queue = q →
        ((on_dmx cfg b raw).2.frame_queue).getLast?
            = some (normalize_frame cfg.DMX_CHANNELS raw)
          ∧ ((on_dmx cfg b raw).2.frame_queue).length ≤ C) := by
  have key : ∀ g : Frame, ((push_frame C q g).1 = PushOutcome.enqueued
        ∨ (push_frame C q g).1 = PushOutcome.evicted)
      ∧ ((push_frame C q g).2).getLast? = some g
      ∧ ((push_frame C q g).2).length ≤ C := by
    intro g
    rcases push_frame_safe C q g hC hq with ⟨heq, hlt⟩ | ⟨x, rest, hqe, heq, hlen⟩
    · rw [heq]
      refine ⟨Or.inl rfl, List.getLast?_concat _, ?_⟩
      simpa using hlt
    · rw [heq]
      refine ⟨Or.inr rfl, List.getLast?_concat _, ?_⟩
      have : rest.length + 1 = C := by
        rw [hqe] at hlen
        simpa using hlen
      simp
      omega
  obtain ⟨h1, h2, h3⟩ := key f
  refine ⟨h1, ?_, ?_, ?_, h2, h3, ?_⟩
  · rcases h1 with h | h <;> simp [h]
  · rcases h1 with h | h <;> simp [h]
  · intro hge
    rcases h1 with h | h
    · rw [push_frame_enqueued_iff] at h
      omega
    · exact h
  · intro cfg b raw hcfg hbq
    rw [on_dmx_expand]
    dsimp only
    rw [hcfg, hbq]
    obtain ⟨_, hg2, hg3⟩ := key (normalize_frame cfg.DMX_CHANNELS raw)
    exact ⟨hg2, hg3⟩

/-- Claim C10 witness: capacity 1, full queue — the push evicts and the
new frame is the sole queued frame. -/
theorem overflow_branch_safety_witness :
    (push_frame 1 [[0]] [7]).1 = PushOutcome.evicted
    ∧ ((push_frame 1 [[0]] [7]).2).getLast? = some [7] :=
  ⟨(overflow_branch_safety 1 [[0]] [7] (by decide) (by decide)).2.2.2.1 (by decide),
   (overflow_branch_safety 1 [[0]] [7] (by decide) (by decide)).2.2.2.2.1⟩

def c1cfg : Config := { DMX_CHANNELS := 4, FRAME_BUFFER_SIZE := 4 }

def c1b : Bridge :=
  (on_dmx c1cfg ((on_dmx c1cfg
    { init_bridge c1cfg with ser := some { is_open := true, write_fails := false } }
    [1]).2) [2]).2

/-- Claim C1 counterexample: after two pushes the queue holds the older
frame `[1,0,0,0]` in front while `dmx_data` is the newer `[2,0,0,0]`; the
scheduler tick pops and sends `[1,0,0,0]`, yet `dmx_data` afterwards is
still `[2,0,0,0]`, not the sent frame — `_output_worker` never assigns
`dmx_data`. -/
theorem pop_send_updates_last_known_cex :
    c1b.frame_queue.head? = some [1, 0, 0, 0]
    ∧ c1b.dmx_data = [2, 0, 0, 0]
    ∧ (output_worker_tick c1cfg c1b).2 = [build_packet 4 [1, 0, 0, 0]]
    ∧ (output_worker_tick c1cfg c1b).1.dmx_data ≠ [1, 0, 0, 0]
    ∧ (output_worker_tick c1cfg c1b).1.dmx_data = [2, 0, 0, 0] := by
  decide

/-- Claim C1 (corrected): when the scheduler tick pops a frame and sends
it, `dmx_data` (LastKnownFrame) is left unchanged — it is overwritten
only by ingestion, so after a pop-and-send it still holds the most
recently ingested frame, not necessarily the frame just sent. -/
theorem pop_send_preserves_dmx_data (cfg : Config) (b : Bridge) (f : Frame)
    (rest : List Frame) (h : b.frame_queue = f :: rest) :
    (output_worker_tick cfg b).1.dmx_data = b.dmx_data
    ∧ (output_worker_tick cfg b).1.frame_queue = rest
    ∧ (output_worker_tick cfg b).2 = (send_frame_to_arduino cfg b.ser f).written := by
  unfold output_worker_tick
  rw [h]
  exact ⟨rfl, rfl, rfl⟩

/-- Claim C1 witness: the pop-and-send tick on the two-frame state leaves
`dmx_data` as it was. -/
theorem pop_send_preserves_dmx_data_witness :
    (output_worker_tick c1cfg c1b).1.dmx_data = c1b.dmx_data :=
  (pop_send_preserves_dmx_data c1cfg c1b [1, 0, 0, 0] [[2, 0, 0, 0]] (by decide)).1

lemma ingest_zero_events (cfg : Config) (zs : List Frame) :
    ∀ b : Bridge, b.last_active_state = false → (∀ f ∈ zs, ∀ v ∈ f, v = 0) →
      (ingest_events cfg b zs).1 = []
      ∧ (ingest_events cfg b zs).2.last_active_state = false := by
  induction zs with
  | nil => exact fun b hb _ => ⟨rfl, hb⟩
  | cons z zs ih =>
    intro b hb hz
    have hdz : has_data (normalize_frame cfg.DMX_CHANNELS z) = false :=
      has_data_false_of_zero _ (normalize_frame_zero _ _ (hz z (by simp)))
    have h1 : (on_dmx cfg b z).1 = none := by
      rw [on_dmx_expand]
      simp [hdz, hb]
    have h2 : (on_dmx cfg b z).2.last_active_state = false := by
      rw [on_dmx_expand]
      simpa using hdz
    obtain ⟨ha, hb2⟩ := ih (on_dmx cfg b z).2 h2 (fun f hf => hz f (by simp [hf]))
    unfold ingest_events
    dsimp only
    rw [h1, ha]
    exact ⟨rfl, hb2⟩

/-- Claim C4 (confirmed): ingestion emits an activity event exactly when
`has_data` differs from the stored boolean, and updates the stored
boolean to `has_data`; consequently, from an active state, a run of
all-zero frames emits exactly one `Deactivated` event, on the first
frame, and none afterwards. -/
theorem activity_edge_detection (cfg : Config) (b : Bridge) (z : Frame)
    (zs : List Frame) (hb : b.last_active_state = true)
    (hz : ∀ v ∈ z, v = 0) (hzs : ∀ f ∈ zs, ∀ v ∈ f, v = 0) :
    (∀ (b2 : Bridge) (raw : Frame),
        ((on_dmx cfg b2 raw).1.isSome
          = (has_data (normalize_frame cfg.DMX_CHANNELS raw) != b2.last_active_state))
        ∧ (on_dmx cfg b2 raw).2.last_active_state
          = has_data (normalize_frame cfg.DMX_CHANNELS raw))
    ∧ (on_dmx cfg b z).1 = some ActivityEvent.Deactivated
    ∧ (ingest_events cfg (on_dmx cfg b z).2 zs).1 = []
    ∧ (ingest_events cfg b (z :: zs)).1 = [ActivityEvent.Deactivated] := by
  have hdz : has_data (normalize_frame cfg.DMX_CHANNELS z) = false :=
    has_data_false_of_zero _ (normalize_frame_zero _ _ hz)
  have hfst : (on_dmx cfg b z).1 = some ActivityEvent.Deactivated := by
    rw [on_dmx_expand]
    simp [hdz, hb]
  have hstate : (on_dmx cfg b z).2.last_active_state = false := by
    rw [on_dmx_expand]
    simpa using hdz
  obtain ⟨hrest, _⟩ := ingest_zero_events cfg zs (on_dmx cfg b z).2 hstate hzs
  refine ⟨?_, hfst, hrest, ?_⟩
  · intro b2 raw
    constructor
    · rw [on_dmx_expand]
      dsimp only
      split <;> simp_all
    · rw [on_dmx_expand]
  · unfold ingest_events
    dsimp only
    rw [hfst, hrest]
    rfl

def c4cfg : Config := { DMX_CHANNELS := 4, FRAME_BUFFER_SIZE := 2 }

def c4b : Bridge := (on_dmx c4cfg (init_bridge c4cfg) [7]).2

/-- Claim C4 witness: after a nonzero frame, three all-zero pushes emit
exactly one `Deactivated` event. -/
theorem activity_edge_detection_witness :
    (ingest_events c4cfg c4b ([0] :: [[0, 0, 0], []])).1
      = [ActivityEvent.Deactivated] :=
  (activity_edge_detection c4cfg c4b [0] [[0, 0, 0], []]
    (by decide) (by decide) (by decide)).2.2.2

lemma tick_empty (cfg : Config) (b : Bridge) (hq : b.frame_queue = [])
    (hd : b.dmx_data ≠ [])
    (hs : b.ser = some { is_open := true, write_fails := false }) :
    output_worker_tick cfg b
      = ({ b with fps_counter := b.fps_counter + 1 },
         [build_packet cfg.DMX_CHANNELS b.dmx_data]) := by
  unfold output_worker_tick
  rw [hq]
  dsimp only
  rw [if_neg hd, hs]
  rfl

lemma tick_run_empty (cfg : Config) (k : Nat) :
    ∀ b : Bridge, b.frame_queue = [] → b.dmx_data ≠ [] →
      b.ser = some { is_open := true, write_fails := false } →
      (tick_run cfg b k).2
          = List.replicate k (build_packet cfg.DMX_CHANNELS b.dmx_data)
        ∧ (tick_run cfg b k).1.dmx_data = b.dmx_data
        ∧ (tick_run cfg b k).1.frame_queue = [] := by
  induction k with
  | zero => exact fun b hq _ _ => ⟨rfl, rfl, hq⟩
  | succ k ih =>
    intro b hq hd hs
    have ht := tick_empty cfg b hq hd hs
    obtain ⟨h1, h2, h3⟩ :=
      ih { b with fps_counter := b.fps_counter + 1 } hq hd hs
    unfold tick_run
    rw [ht]
    dsimp only
    rw [h1, List.replicate_succ]
    exact ⟨rfl, h2, h3⟩

/-- Claim C5 (confirmed): when the queue is empty and `dmx_data` is a
non-empty frame, the tick sends exactly the current `dmx_data` packet (no
synthetic frame), leaves the state otherwise unchanged, and every
subsequent tick without a new push resends the same frame. -/
theorem empty_buffer_resends_last_known (cfg : Config) (b : Bridge) (k : Nat)
    (hq : b.frame_queue = []) (hd : b.dmx_data ≠ [])
    (hs : b.ser = some { is_open := true, write_fails := false }) :
    (output_worker_tick cfg b).2 = [build_packet cfg.DMX_CHANNELS b.dmx_data]
    ∧ (output_worker_tick cfg b).1.dmx_data = b.dmx_data
    ∧ (output_worker_tick cfg b).1.frame_queue = []
    ∧ (tick_run cfg b k).2
        = List.replicate k (build_packet cfg.DMX_CHANNELS b.dmx_data)
    ∧ (tick_run cfg b k).1.dmx_data = b.dmx_data := by
  have ht := tick_empty cfg b hq hd hs
  obtain ⟨h1, h2, _⟩ := tick_run_empty cfg k b hq hd hs
  rw [ht]
  exact ⟨rfl, rfl, hq, h1, h2⟩

def c5b : Bridge :=
  { init_bridge (Config.mk 4 2) with
      ser := some { is_open := true, write_fails := false } }

/-- Claim C5 witness: three consecutive ticks on an empty buffer each
resend the `dmx_data` packet. -/
theorem empty_buffer_resends_last_known_witness :
    (tick_run (Config.mk 4 2) c5b 3).2
      = List.replicate 3 (build_packet (Config.mk 4 2).DMX_CHANNELS c5b.dmx_data) :=
  (empty_buffer_resends_last_known (Config.mk 4 2) c5b 3
    (by decide) (by decide) (by decide)).2.2.2.1

/-- Claim C6 (confirmed): for a frame of length exactly `N = DMX_CHANNELS`
(with `N < 2^16`), the wire packet has length `N + 3`, byte 0 is `0xFF`,
bytes 1-2 are `N` little-endian, and decoding the packet returns the
original frame. -/
theorem wire_packet_roundtrip (cfg : Config) (data : Frame)
    (hlen : data.length = cfg.DMX_CHANNELS) (hN : cfg.DMX_CHANNELS < 65536) :
    (build_packet cfg.DMX_CHANNELS data).length = cfg.DMX_CHANNELS + 3
    ∧ (build_packet cfg.DMX_CHANNELS data).head? = some 255
    ∧ cfg.DMX_CHANNELS &&& 255 = cfg.DMX_CHANNELS % 256
    ∧ (cfg.DMX_CHANNELS >>> 8) &&& 255 = cfg.DMX_CHANNELS / 256
    ∧ cfg.DMX_CHANNELS % 256 + 256 * (cfg.DMX_CHANNELS / 256) = cfg.DMX_CHANNELS
    ∧ decode_packet (build_packet cfg.DMX_CHANNELS data) = some data := by
  have h1 : cfg.DMX_CHANNELS &&& 255 = cfg.DMX_CHANNELS % 256 := by
    have := Nat.and_pow_two_sub_one_eq_mod cfg.DMX_CHANNELS 8
    norm_num at this
    exact this
  have hb : cfg.DMX_CHANNELS >>> 8 = cfg.DMX_CHANNELS / 256 := by
    rw [Nat.shiftRight_eq_div_pow]
  have h2 : (cfg.DMX_CHANNELS >>> 8) &&& 255 = cfg.DMX_CHANNELS / 256 := by
    have ha := Nat.and_pow_two_sub_one_eq_mod (cfg.DMX_CHANNELS >>> 8) 8
    norm_num at ha
    rw [hb] at ha
    rw [hb, ha]
    exact Nat.mod_eq_of_lt (Nat.div_lt_of_lt_mul (by omega))
  refine ⟨?_, rfl, h1, h2, by omega, ?_⟩
  · simp [build_packet, hlen]
  · unfold build_packet decode_packet
    rw [h1, h2]
    dsimp only
    have hsum : cfg.DMX_CHANNELS % 256 + 256 * (cfg.DMX_CHANNELS / 256)
        = cfg.DMX_CHANNELS := by omega
    rw [hsum, hlen, if_pos le_rfl, ← hlen, List.take_length]

/-- Claim C6 witness: the all-255 frame of length 512 round-trips through
the wire packet with the shipped configuration. -/
theorem wire_packet_roundtrip_witness :
    decode_packet (build_packet defaultConfig.DMX_CHANNELS (List.replicate 512 255))
      = some (List.replicate 512 255) :=
  (wire_packet_roundtrip defaultConfig (List.replicate 512 255)
    (by rw [List.length_replicate]; rfl) (by decide)).2.2.2.2.2

lemma shutdown_running (b : Bridge) : (shutdown b).running = false := by
  unfold shutdown
  rcases hser : b.ser with _ | s
  · rfl
  · dsimp only
    split <;> rfl

/-- Claim C7 (confirmed): after `shutdown` the running flag is cleared,
the very next iteration-boundary check of the worker loop performs no
send and leaves the state untouched (the loop exits), and any number of
further loop iterations sends nothing — the cumulative sent-frame count
never increases after stop. -/
theorem no_sends_after_shutdown (cfg : Config) (b : Bridge) :
    (shutdown b).running = false
    ∧ worker_step cfg (shutdown b) = (shutdown b, [])
    ∧ ∀ k : Nat, worker_run cfg (shutdown b) k = (shutdown b, []) := by
  have hr := shutdown_running b
  have hstep : worker_step cfg (shutdown b) = (shutdown b, []) := by
    unfold worker_step
    rw [hr]
    rfl
  refine ⟨hr, hstep, ?_⟩
  intro k
  induction k with
  | zero => rfl
  | succ k ih =>
    unfold worker_run
    rw [hstep]
    dsimp only
    rw [ih]
    rfl

/-- Claim C8 (confirmed): with no port or a closed port, `send` performs
no write attempt and no state change and yields the silent no-op outcome,
which is a different outcome from a write error; with an open port whose
write fails, it makes exactly one attempt (no retry), writes nothing, and
yields the error outcome; a successful send writes exactly one packet. -/
theorem send_noop_and_error_behavior (cfg : Config) (data : Frame) :
    (send_frame_to_arduino cfg none data
      = { result := SendResult.skipped, attempts := 0, written := [] })
    ∧ (∀ s : SerialPort, s.is_open = false →
        send_frame_to_arduino cfg (some s) data
          = { result := SendResult.skipped, attempts := 0, written := [] })
    ∧ SendResult.skipped ≠ SendResult.writeError
    ∧ (∀ s : SerialPort, s.is_open = true → s.write_fails = true →
        send_frame_to_arduino cfg (some s) data
          = { result := SendResult.writeError, attempts := 1, written := [] })
    ∧ (∀ s : SerialPort, s.is_open = true → s.write_fails = false →
        send_frame_to_arduino cfg (some s) data
          = { result := SendResult.sentOk, attempts := 1
              written := [build_packet cfg.DMX_CHANNELS data] }) := by
  refine ⟨rfl, ?_, by simp, ?_, ?_⟩
  · intro s h
    simp [send_frame_to_arduino, h]
  · intro s h1 h2
    simp [send_frame_to_arduino, h1, h2]
  · intro s h1 h2
    simp [send_frame_to_arduino, h1, h2]

/-- Claim C8 witness: a closed port makes `send` a silent no-op. -/
theorem send_noop_and_error_behavior_witness :
    send_frame_to_arduino defaultConfig
        (some { is_open := false, write_fails := false }) [1, 2]
      = { result := SendResult.skipped, attempts := 0, written := [] } :=
  (send_noop_and_error_behavior defaultConfig [1, 2]).2.1
    { is_open := false, write_fails := false } rfl

end DmxBridge
